import Mathlib

/-!
Verification development for the R&D report builder (`RGGP7.py`).

The file shallowly embeds the parts of the program that the verified
properties concern: the table-text inference (`parse_table_text`), the
report data model (`ReportModel` and friends), the persistence transforms
(`_to_dict` / `_load_from_dict`), the two renderers (`_export_docx` and
`_export_pdf_basic`, embedded as builders of an abstract block sequence),
the result dialog's save path, and the generate entry point.

Python string primitives used by the source (`str.strip`, `str.split`,
`str.splitlines`, `re.split(r"\s{2,}", ...)`) are re-implemented here over
`List Char` with structural recursion so that every definition evaluates
inside the kernel.  The `csv` module calls (`csv.Sniffer().sniff`,
`csv.reader`) are external-library calls; they are modelled from their
documented behaviour on the unquoted inputs this program feeds them (see
`sniffDelim`).
-/

namespace RGGP7

/-- The six characters Python's default `str.strip` (and ASCII `\s`) treat as
whitespace. -/
def pyIsSpace (c : Char) : Bool :=
  c = ' ' || c = '\t' || c = '\n' || c = '\r' || c = '\x0b' || c = '\x0c'

/-- Drop characters satisfying `p` from both ends of a character list
(the core of Python's `str.strip`). -/
def stripList (p : Char → Bool) (l : List Char) : List Char :=
  ((l.dropWhile p).reverse.dropWhile p).reverse

/-- Python `s.strip()` (default whitespace stripping). -/
def pyStrip (s : String) : String :=
  String.mk (stripList pyIsSpace s.data)

/-- Python `s.strip("\n")`: strip newline characters from both ends. -/
def stripNLs (s : String) : String :=
  String.mk (stripList (fun c => c = '\n') s.data)

/-- Split a character list at every occurrence of `c`
(Python `s.split(c)`: no run collapsing, empty fields kept). -/
def splitOnCharList (c : Char) (l : List Char) : List (List Char) :=
  l.foldr
    (fun x acc =>
      if x = c then [] :: acc
      else
        match acc with
        | h :: t => (x :: h) :: t
        | [] => [[x]])
    [[]]

/-- Python `s.split(c)` for a one-character separator. -/
def pySplit (c : Char) (s : String) : List String :=
  (splitOnCharList c s.data).map String.mk

/-- The line decomposition used throughout the source.  The source calls
`str.splitlines()`; on the inputs it is applied to here (either stripped of
boundary newlines first, or immediately filtered of blank lines) this agrees
with splitting at every `'\n'`. -/
def pySplitLines (s : String) : List String :=
  pySplit '\n' s

/-- The `safe_split_lines` from the source: strip every line, keep the non-empty
ones, preserving order. -/
def safe_split_lines (text : String) : List String :=
  ((pySplitLines text).map pyStrip).filter (fun ln => ln ≠ "")

/-- One right-to-left step of the `re.split(r"\s{2,}", ...)` splitter.  The
state is `(pending, fields)`: `pending` holds the whitespace characters seen
immediately to the right of the current position and not yet committed,
`fields` the fields of the already-processed suffix (never empty). -/
def wsRunStep (x : Char) : List Char × List (List Char) → List Char × List (List Char)
  | (pending, fields) =>
    if pyIsSpace x then (x :: pending, fields)
    else if 2 ≤ pending.length then
      ([], [x] :: fields)
    else
      ([], (x :: (pending ++ fields.headD [])) :: fields.tail)

/-- The `re.split(r"\s{2,}", s)`: fields separated by maximal runs of two or more
whitespace characters; a single whitespace character stays inside its field;
a boundary run produces an empty boundary field, exactly as `re.split`
does. -/
def wsRunSplit (l : List Char) : List (List Char) :=
  let res := l.foldr wsRunStep ([], [[]])
  if 2 ≤ res.1.length then [] :: res.2
  else
    match res.2 with
    | h :: t => (res.1 ++ h) :: t
    | [] => [res.1]

/-- Count of per-line occurrences of a candidate delimiter being positive and
identical on every line: the consistency test of the delimiter-frequency
heuristic of `csv.Sniffer` (modelled; see `sniffDelim`). -/
def delimConsistent (txt : String) (d : Char) : Bool :=
  match (pySplitLines txt).map (fun ln => ln.data.count d) with
  | [] => false
  | n :: rest => decide (0 < n) && rest.all (fun k => k == n)

/-- Model of the external call `csv.Sniffer().sniff(txt, delimiters="\t,;")`
on the unquoted text this program feeds it: a delimiter among tab, comma and
semicolon is detected when it occurs a positive, per-line-constant number of
times, candidates being preferred in the sniffer's order (comma, then tab,
then semicolon); otherwise the sniff raises, which the caller turns into
fall-through (`none` here). -/
def sniffDelim (txt : String) : Option Char :=
  if delimConsistent txt ',' then some ','
  else if delimConsistent txt '\t' then some '\t'
  else if delimConsistent txt ';' then some ';'
  else none

/-- The sniffing stage of `parse_table_text`: on a detected delimiter the
lines are read as delimited records (model of `csv.reader` on quote-free
input: plain splitting at the delimiter), each cell stripped, and the result
is kept only if some row has more than one column.  `none` means the stage
fell through. -/
def sniffStage (txt : String) : Option (List (List String)) :=
  match sniffDelim txt with
  | none => none
  | some d =>
    let rows := (pySplitLines txt).map (fun ln => pySplit d ln)
    if rows ≠ [] ∧ rows.any (fun r => 1 < r.length) then
      some (rows.map (fun r => r.map pyStrip))
    else
      none

/-- The `parse_table_text` from the source: strip boundary newlines; empty text
gives no rows; try delimiter sniffing; else split on tabs when a tab occurs
anywhere; else split each stripped line on runs of two or more whitespace
characters, a line without such a run becoming a single-cell row. -/
def parse_table_text (text : String) : List (List String) :=
  let txt := stripNLs text
  if txt = "" then []
  else
    match sniffStage txt with
    | some rows => rows
    | none =>
      if txt.data.any (fun c => c = '\t') then
        (pySplitLines txt).map (fun ln => (pySplit '\t' ln).map pyStrip)
      else
        (pySplitLines txt).map (fun ln =>
          let parts := ((wsRunSplit (pyStrip ln).data).map String.mk).filter
            (fun p => p ≠ "")
          if parts ≠ [] then parts else [pyStrip ln])

/-- The `TrialRow` dataclass. -/
structure TrialRow where
  number : String
  issue : String
  reasons : String
deriving DecidableEq, Repr

/-- The `ResultItem` dataclass, with the dataclass's field defaults.  The
`image_path` field is `Optional[str]` in the source. -/
structure ResultItem where
  title : String
  kind : String
  content : String := ""
  image_path : Option String := none
  images : List String := []
  caption : String := ""
  table_data : List (List String) := []
  table_style : String := "Table Grid"
deriving DecidableEq, Repr

/-- The `EmailEntry` dataclass. -/
structure EmailEntry where
  date : String
  customer : String
  correspondence : String
deriving DecidableEq, Repr

/-- The `smart_goals` dictionary of the model: the source initialises and
reads exactly the keys `S M A R T` (default `""` each), so it is embedded as
a record of those five entries. -/
structure SmartGoals where
  sS : String := ""
  sM : String := ""
  sA : String := ""
  sR : String := ""
  sT : String := ""
deriving DecidableEq, Repr

/-- The `ReportModel` dataclass with the dataclass's defaults. -/
structure ReportModel where
  project_title : String := ""
  start_date : String := ""
  report_date : String := ""
  assigned_by : String := ""
  bin_no : String := ""
  researcher_name : String := ""
  total_hours : String := ""
  plain_summary : String := ""
  objectives : List String := []
  methods_raw_materials : List String := []
  methods_instruments : List String := []
  methods_procedure : List String := []
  trial_history : List TrialRow := []
  trial_layout : String := "Even columns"
  trial_docx_style : String := "Table Grid"
  results : List ResultItem := []
  conclusion : List String := []
  miscellaneous : String := ""
  references : List String := []
  regulations : String := ""
  label_req : String := ""
  certification_req : String := ""
  manuf_order_steps : List String := []
  formulation_risk_text : String := ""
  hazards_text : String := ""
  equipment_text : String := ""
  capex_text : String := ""
  safety_assess_text : String := ""
  raw_material_sourcing : String := ""
  lims_setup : String := ""
  stability_testing : String := ""
  packaging_compatibility : String := ""
  c_obj_problem : String := ""
  smart_goals : SmartGoals := {}
  c_specs : String := ""
  c_expected_volume : String := ""
  c_packaging_req : String := ""
  c_raw_material_prefs : String := ""
  c_sample_needed : String := ""
  c_opportunity_timeline : String := ""
  target_application : String := ""
  customer_feedback : String := ""
  tds_development : String := ""
  email_correspondence : List EmailEntry := []
deriving DecidableEq, Repr

/-- The include-set: the sixteen `_include_state_keys` flags, each defaulting
to enabled. -/
structure Include where
  sec_general : Bool := true
  t_plain : Bool := true
  t_objectives : Bool := true
  t_methods : Bool := true
  t_rm : Bool := true
  t_ins : Bool := true
  t_proc : Bool := true
  t_trial : Bool := true
  t_results : Bool := true
  t_conc : Bool := true
  t_misc : Bool := true
  t_refs : Bool := true
  sec_reg : Bool := true
  sec_scale : Bool := true
  sec_quality : Bool := true
  sec_commercial : Bool := true
deriving DecidableEq, Repr

/-- The all-enabled include-set (the application's default state). -/
def incAll : Include := {}

/-- One node of the abstract document stream the two exporters emit, with
only the structure the verified properties speak about: heading level and
text, paragraph text, list item with its ordered/unordered flag, table grid
(row-major cells), and a placed picture path. -/
inductive Block where
  | head : Nat → String → Block
  | para : String → Block
  | li : Bool → String → Block
  | tbl : List (List String) → Block
  | pic : String → Block
deriving DecidableEq, Repr

/-- The table grid a table-kind result item is rendered from, the expression
`it.table_data if it.table_data else parse_table_text(it.content)` common to
both exporters. -/
def effTableData (it : ResultItem) : List (List String) :=
  if it.table_data ≠ [] then it.table_data else parse_table_text it.content

/-- The image list an image-kind result item is rendered from, the expression
`it.images if it.images else ([it.image_path] if it.image_path else [])`
common to both exporters. -/
def effImages (it : ResultItem) : List String :=
  if it.images ≠ [] then it.images
  else
    match it.image_path with
    | some p => if p ≠ "" then [p] else []
    | none => []

/-- Column count of a grid, `max(len(rw) for rw in data)` (0 on an empty
grid, which the exporters never reach: they guard on a non-empty grid). -/
def gridCols (data : List (List String)) : Nat :=
  data.foldr (fun r acc => max r.length acc) 0

/-- The DOCX exporter's width reconciliation: every row padded with trailing
empty cells to the grid's column count
(`row[c_i] if c_i < len(row) else ""`). -/
def padGrid (data : List (List String)) : List (List String) :=
  data.map (fun row => (List.range (gridCols data)).map (fun c => row.getD c ""))

/-- Python's `s.replace("\n", "<br/>")`, used by the PDF exporter on body
paragraphs. -/
def brJoin (s : String) : String :=
  String.intercalate "<br/>" (pySplitLines s)

/-- The blocks `_export_docx` emits for one result item at 1-based position
`idx`: text items get a numbered level-3 heading and one body paragraph per
non-blank content line; table items get their bare title and, when the
effective grid is non-empty, the padded grid; image items, when they have
images, get their bare title when non-empty, then each on-disk image followed
by the caption when non-empty.  (`doc.add_picture` is modelled as succeeding
on every path `isFile` accepts.) -/
def docxResultBlocks (isFile : String → Bool) (idx : Nat) (it : ResultItem) :
    List Block :=
  if it.kind = "text" then
    Block.head 3 ("2.4." ++ toString idx ++ ". " ++ it.title)
      :: (safe_split_lines it.content).map Block.para
  else if it.kind = "table" then
    Block.head 3 it.title ::
      (if effTableData it ≠ [] then [Block.tbl (padGrid (effTableData it))] else [])
  else if it.kind = "image" then
    if effImages it ≠ [] then
      (if it.title ≠ "" then [Block.head 3 it.title] else [])
        ++ (effImages it).flatMap (fun p =>
            if p ≠ "" && isFile p then
              Block.pic p :: (if it.caption ≠ "" then [Block.para it.caption] else [])
            else [])
    else []
  else []

/-- The `2.4. Results` body of `_export_docx`: the items in stored order,
enumerated from `idx`. -/
def docxResultsList (isFile : String → Bool) : Nat → List ResultItem → List Block
  | _, [] => []
  | idx, it :: rest =>
    docxResultBlocks isFile idx it ++ docxResultsList isFile (idx + 1) rest

/-- The blocks `_export_pdf_basic` emits for one result item at 1-based
position `i`: text items get a numbered level-3 heading and one paragraph
(newlines turned into line breaks); table items get their bare title and the
unpadded grid when non-empty, else a content paragraph; image items behave as
in the DOCX exporter. -/
def pdfResultBlocks (isFile : String → Bool) (i : Nat) (it : ResultItem) :
    List Block :=
  if it.kind = "text" then
    [Block.head 3 ("2.4." ++ toString i ++ ". " ++ it.title),
     Block.para (brJoin it.content)]
  else if it.kind = "table" then
    Block.head 3 it.title ::
      (if effTableData it ≠ [] then [Block.tbl (effTableData it)]
       else [Block.para (brJoin it.content)])
  else if it.kind = "image" then
    if effImages it ≠ [] then
      (if it.title ≠ "" then [Block.head 3 it.title] else [])
        ++ (effImages it).flatMap (fun p =>
            if p ≠ "" && isFile p then
              Block.pic p :: (if it.caption ≠ "" then [Block.para it.caption] else [])
            else [])
    else []
  else []

/-- The `2.4. Results` body of `_export_pdf_basic`. -/
def pdfResultsList (isFile : String → Bool) : Nat → List ResultItem → List Block
  | _, [] => []
  | i, it :: rest =>
    pdfResultBlocks isFile i it ++ pdfResultsList isFile (i + 1) rest

/-- The `General Information` key/value grid both exporters build. -/
def generalRows (r : ReportModel) : List (List String) :=
  [["Start Date", r.start_date],
   ["Report Date", r.report_date],
   ["Assigned By", r.assigned_by],
   ["Bin No", r.bin_no],
   ["Researcher Name", r.researcher_name],
   ["Total Hours", r.total_hours]]

/-- The trial-history grid both exporters build (header row plus one row per
trial). -/
def trialRows (r : ReportModel) : List (List String) :=
  ["Trial#", "Issue", "Possible Reasons"]
    :: r.trial_history.map (fun t => [t.number, t.issue, t.reasons])

/-- The email-correspondence grid both exporters build. -/
def emailRows (r : ReportModel) : List (List String) :=
  ["Date", "Customer Name", "Correspondence"]
    :: r.email_correspondence.map (fun e => [e.date, e.customer, e.correspondence])

/-- The `SMART` body paragraphs both exporters emit: for each of the five
keys in order, a labelled paragraph when the stripped value is non-blank.
`stripped` selects whether the paragraph carries the stripped value (the PDF
exporter) or the raw one (the DOCX exporter). -/
def smartParas (g : SmartGoals) (stripped : Bool) : List Block :=
  [("S", "Specific", g.sS), ("M", "Measurable", g.sM), ("A", "Achievable", g.sA),
   ("R", "Relevant", g.sR), ("T", "Time-bound", g.sT)].flatMap
    (fun kv =>
      if pyStrip kv.2.2 ≠ "" then
        [Block.para (kv.2.1 ++ ": " ++ (if stripped then pyStrip kv.2.2 else kv.2.2))]
      else [])

/-- The `_export_docx`, section 1 (guarded by `sec_general`). -/
def docxSegGeneral (inc : Include) (r : ReportModel) : List Block :=
  if inc.sec_general then
    [Block.head 1 "\n1. General Information", Block.tbl (generalRows r)]
  else []

/-- The `_export_pdf_basic`, section 1. -/
def pdfSegGeneral (inc : Include) (r : ReportModel) : List Block :=
  if inc.sec_general then
    [Block.head 1 "1. General Information", Block.tbl (generalRows r)]
  else []

/-- The `_export_docx`, subsection 2.1 (guarded by `t_plain`). -/
def docxSegPlain (inc : Include) (r : ReportModel) : List Block :=
  if inc.t_plain then
    [Block.head 2 "2.1. Plain Language Summary", Block.para r.plain_summary]
  else []

/-- The `_export_pdf_basic`, subsection 2.1. -/
def pdfSegPlain (inc : Include) (r : ReportModel) : List Block :=
  if inc.t_plain then
    [Block.head 2 "2.1. Plain Language Summary", Block.para (brJoin r.plain_summary)]
  else []

/-- The `_export_docx`, subsection 2.2: one numbered list paragraph per
objective. -/
def docxSegObjectives (inc : Include) (r : ReportModel) : List Block :=
  if inc.t_objectives then
    Block.head 2 "2.2. Objectives" :: r.objectives.map (Block.li true)
  else []

/-- The `_export_pdf_basic`, subsection 2.2: one ordered `ListFlowable` when the
list is non-empty. -/
def pdfSegObjectives (inc : Include) (r : ReportModel) : List Block :=
  if inc.t_objectives then
    Block.head 2 "2.2. Objectives"
      :: (if r.objectives ≠ [] then r.objectives.map (Block.li true) else [])
  else []

/-- The `_export_docx`, subsection 2.3 with its four guarded sub-subsections. -/
def docxSegMethods (inc : Include) (r : ReportModel) : List Block :=
  if inc.t_methods then
    Block.head 2 "2.3. Methods"
      :: ((if inc.t_rm then
            Block.head 3 "2.3.1. Raw Materials"
              :: r.methods_raw_materials.map (Block.li false)
          else [])
        ++ (if inc.t_ins then
              Block.head 3 "2.3.2. Instrument"
                :: r.methods_instruments.map (Block.li false)
            else [])
        ++ (if inc.t_proc then
              Block.head 3 "2.3.3. Experimental Procedure"
                :: r.methods_procedure.map (Block.li false)
            else [])
        ++ (if inc.t_trial then
              Block.head 3 "2.3.4. Trial History"
                :: (if r.trial_history ≠ [] then [Block.tbl (trialRows r)] else [])
            else []))
  else []

/-- The `_export_pdf_basic`, subsection 2.3. -/
def pdfSegMethods (inc : Include) (r : ReportModel) : List Block :=
  if inc.t_methods then
    Block.head 2 "2.3. Methods"
      :: ((if inc.t_rm then
            Block.head 3 "2.3.1. Raw Materials"
              :: r.methods_raw_materials.map (Block.li false)
          else [])
        ++ (if inc.t_ins then
              Block.head 3 "2.3.2. Instrument"
                :: r.methods_instruments.map (Block.li false)
            else [])
        ++ (if inc.t_proc then
              Block.head 3 "2.3.3. Experimental Procedure"
                :: r.methods_procedure.map (Block.li false)
            else [])
        ++ (if inc.t_trial then
              Block.head 3 "2.3.4. Trial History"
                :: (if r.trial_history ≠ [] then [Block.tbl (trialRows r)] else [])
            else []))
  else []

/-- The `_export_docx`, subsection 2.4 (guarded by `t_results`). -/
def docxSegResults (inc : Include) (r : ReportModel) (isFile : String → Bool) :
    List Block :=
  if inc.t_results then
    Block.head 2 "2.4. Results" :: docxResultsList isFile 1 r.results
  else []

/-- The `_export_pdf_basic`, subsection 2.4. -/
def pdfSegResults (inc : Include) (r : ReportModel) (isFile : String → Bool) :
    List Block :=
  if inc.t_results then
    Block.head 2 "2.4. Results" :: pdfResultsList isFile 1 r.results
  else []

/-- The `_export_docx`, subsection 2.5: bulleted conclusion lines. -/
def docxSegConc (inc : Include) (r : ReportModel) : List Block :=
  if inc.t_conc then
    Block.head 2 "2.5. Conclusion" :: r.conclusion.map (Block.li false)
  else []

/-- The `_export_pdf_basic`, subsection 2.5. -/
def pdfSegConc (inc : Include) (r : ReportModel) : List Block :=
  if inc.t_conc then
    Block.head 2 "2.5. Conclusion" :: r.conclusion.map (Block.li false)
  else []

/-- The `_export_docx`, subsection 2.6. -/
def docxSegMisc (inc : Include) (r : ReportModel) : List Block :=
  if inc.t_misc then
    [Block.head 2 "2.6. Miscellaneous", Block.para r.miscellaneous]
  else []

/-- The `_export_pdf_basic`, subsection 2.6. -/
def pdfSegMisc (inc : Include) (r : ReportModel) : List Block :=
  if inc.t_misc then
    [Block.head 2 "2.6. Miscellaneous", Block.para (brJoin r.miscellaneous)]
  else []

/-- The `_export_docx`, subsection 2.7: bulleted references. -/
def docxSegRefs (inc : Include) (r : ReportModel) : List Block :=
  if inc.t_refs then
    Block.head 2 "2.7. References" :: r.references.map (Block.li false)
  else []

/-- The `_export_pdf_basic`, subsection 2.7. -/
def pdfSegRefs (inc : Include) (r : ReportModel) : List Block :=
  if inc.t_refs then
    Block.head 2 "2.7. References" :: r.references.map (Block.li false)
  else []

/-- The `_export_docx`, section 3. -/
def docxSegReg (inc : Include) (r : ReportModel) : List Block :=
  if inc.sec_reg then
    [Block.head 1 "\n3. Regulatory",
     Block.head 2 "3.1. Application regulations", Block.para r.regulations,
     Block.head 2 "3.2. Label Requirements", Block.para r.label_req,
     Block.head 2 "3.3. Certification Requirements", Block.para r.certification_req]
  else []

/-- The `_export_pdf_basic`, section 3. -/
def pdfSegReg (inc : Include) (r : ReportModel) : List Block :=
  if inc.sec_reg then
    [Block.head 1 "3. Regulatory",
     Block.head 2 "3.1. Application regulations", Block.para (brJoin r.regulations),
     Block.head 2 "3.2. Label Requirements", Block.para (brJoin r.label_req),
     Block.head 2 "3.3. Certification Requirements",
     Block.para (brJoin r.certification_req)]
  else []

/-- The `_export_docx`, section 4: the manufacturing-order steps are bulleted
(`numbered=False`). -/
def docxSegScale (inc : Include) (r : ReportModel) : List Block :=
  if inc.sec_scale then
    [Block.head 1 "\n4. Scale Up", Block.head 2 "4.1. Manufacturing Order"]
      ++ r.manuf_order_steps.map (Block.li false)
      ++ [Block.head 2 "4.2. Formulation Risk", Block.para r.formulation_risk_text,
          Block.head 2 "4.3. Hazards", Block.para r.hazards_text,
          Block.head 2 "4.4. Equipment", Block.para r.equipment_text,
          Block.head 2 "4.5. CAPEX Requirements", Block.para r.capex_text,
          Block.head 2 "4.6. Safety Assessment", Block.para r.safety_assess_text]
  else []

/-- The `_export_pdf_basic`, section 4: the manufacturing-order steps are one
bulleted `ListFlowable` when non-empty. -/
def pdfSegScale (inc : Include) (r : ReportModel) : List Block :=
  if inc.sec_scale then
    [Block.head 1 "4. Scale Up", Block.head 2 "4.1. Manufacturing Order"]
      ++ (if r.manuf_order_steps ≠ [] then r.manuf_order_steps.map (Block.li false) else [])
      ++ [Block.head 2 "4.2. Formulation Risk", Block.para (brJoin r.formulation_risk_text),
          Block.head 2 "4.3. Hazards", Block.para (brJoin r.hazards_text),
          Block.head 2 "4.4. Equipment", Block.para (brJoin r.equipment_text),
          Block.head 2 "4.5. CAPEX Requirements", Block.para (brJoin r.capex_text),
          Block.head 2 "4.6. Safety Assessment", Block.para (brJoin r.safety_assess_text)]
  else []

/-- The `_export_docx`, section 5. -/
def docxSegQuality (inc : Include) (r : ReportModel) : List Block :=
  if inc.sec_quality then
    [Block.head 1 "\n5. Quality",
     Block.head 2 "5.1. Raw Material Sourcing", Block.para r.raw_material_sourcing,
     Block.head 2 "5.2. LIMS Setup", Block.para r.lims_setup,
     Block.head 2 "5.3. Stability Testing", Block.para r.stability_testing,
     Block.head 2 "5.4. Packaging Compatibility", Block.para r.packaging_compatibility]
  else []

/-- The `_export_pdf_basic`, section 5. -/
def pdfSegQuality (inc : Include) (r : ReportModel) : List Block :=
  if inc.sec_quality then
    [Block.head 1 "5. Quality",
     Block.head 2 "5.1. Raw Material Sourcing", Block.para (brJoin r.raw_material_sourcing),
     Block.head 2 "5.2. LIMS Setup", Block.para (brJoin r.lims_setup),
     Block.head 2 "5.3. Stability Testing", Block.para (brJoin r.stability_testing),
     Block.head 2 "5.4. Packaging Compatibility",
     Block.para (brJoin r.packaging_compatibility)]
  else []

/-- The `_export_docx`, section 6, the email table guarded on a non-empty list. -/
def docxSegCommercial (inc : Include) (r : ReportModel) : List Block :=
  if inc.sec_commercial then
    [Block.head 1 "\n6. Commercial",
     Block.head 2 "6.1. Customer Objectives / Problem Statement",
     Block.para r.c_obj_problem,
     Block.head 2 "6.2. SMART Success Criteria"]
      ++ smartParas r.smart_goals false
      ++ [Block.head 2 "6.3. Customer Specifications", Block.para r.c_specs,
          Block.head 2 "6.4. Expected Business Volume", Block.para r.c_expected_volume,
          Block.head 2 "6.5. Packaging Requirement", Block.para r.c_packaging_req,
          Block.head 2 "6.6. Raw Material Restrictions / Preferences",
          Block.para r.c_raw_material_prefs,
          Block.head 2 "6.7. Sample Needed", Block.para r.c_sample_needed,
          Block.head 2 "6.8. Opportunity Timeline", Block.para r.c_opportunity_timeline,
          Block.head 2 "6.9. Target Application", Block.para r.target_application,
          Block.head 2 "6.10. Customer Feedback", Block.para r.customer_feedback,
          Block.head 2 "6.11. TDS Development", Block.para r.tds_development,
          Block.head 2 "6.12. Email Correspondence"]
      ++ (if r.email_correspondence ≠ [] then [Block.tbl (emailRows r)] else [])
  else []

/-- The `_export_pdf_basic`, section 6. -/
def pdfSegCommercial (inc : Include) (r : ReportModel) : List Block :=
  if inc.sec_commercial then
    [Block.head 1 "6. Commercial",
     Block.head 2 "6.1. Customer Objectives / Problem Statement",
     Block.para (brJoin r.c_obj_problem),
     Block.head 2 "6.2. SMART Success Criteria"]
      ++ smartParas r.smart_goals true
      ++ [Block.head 2 "6.3. Customer Specifications", Block.para (brJoin r.c_specs),
          Block.head 2 "6.4. Expected Business Volume",
          Block.para (brJoin r.c_expected_volume),
          Block.head 2 "6.5. Packaging Requirement", Block.para (brJoin r.c_packaging_req),
          Block.head 2 "6.6. Raw Material Restrictions / Preferences",
          Block.para (brJoin r.c_raw_material_prefs),
          Block.head 2 "6.7. Sample Needed", Block.para (brJoin r.c_sample_needed),
          Block.head 2 "6.8. Opportunity Timeline",
          Block.para (brJoin r.c_opportunity_timeline),
          Block.head 2 "6.9. Target Application", Block.para (brJoin r.target_application),
          Block.head 2 "6.10. Customer Feedback", Block.para (brJoin r.customer_feedback),
          Block.head 2 "6.11. TDS Development", Block.para (brJoin r.tds_development),
          Block.head 2 "6.12. Email Correspondence"]
      ++ (if r.email_correspondence ≠ [] then [Block.tbl (emailRows r)] else [])
  else []

/-- The abstract block stream of `_export_docx`, in emission order: the
centred title paragraph, then the guarded sections.  Header and footer bands,
spacing, styling and the output file are outside the stream; the level-1
heading texts carry the literal leading `"\n"` the source passes to `_H1`. -/
def docxBlocks (inc : Include) (r : ReportModel) (isFile : String → Bool) :
    List Block :=
  [Block.para r.project_title]
    ++ docxSegGeneral inc r
    ++ [Block.head 1 "\n2. Technical Information"]
    ++ docxSegPlain inc r
    ++ docxSegObjectives inc r
    ++ docxSegMethods inc r
    ++ docxSegResults inc r isFile
    ++ docxSegConc inc r
    ++ docxSegMisc inc r
    ++ docxSegRefs inc r
    ++ docxSegReg inc r
    ++ docxSegScale inc r
    ++ docxSegQuality inc r
    ++ docxSegCommercial inc r

/-- The abstract block stream of `_export_pdf_basic`, in story order.
Spacers, the on-page header/footer callback and the output file are outside
the stream. -/
def pdfBlocks (inc : Include) (r : ReportModel) (isFile : String → Bool) :
    List Block :=
  [Block.para r.project_title]
    ++ pdfSegGeneral inc r
    ++ [Block.head 1 "2. Technical Information"]
    ++ pdfSegPlain inc r
    ++ pdfSegObjectives inc r
    ++ pdfSegMethods inc r
    ++ pdfSegResults inc r isFile
    ++ pdfSegConc inc r
    ++ pdfSegMisc inc r
    ++ pdfSegRefs inc r
    ++ pdfSegReg inc r
    ++ pdfSegScale inc r
    ++ pdfSegQuality inc r
    ++ pdfSegCommercial inc r

/-- One entry of the text sequence the cross-renderer property compares:
a heading text, a list-item text, or a table cell text. -/
inductive TextItem where
  | headText : String → TextItem
  | liText : String → TextItem
  | cellText : String → TextItem
deriving DecidableEq, Repr

/-- The ordered sequence of heading texts, list-item texts and table cell
texts (row-major) of a block stream; paragraphs and pictures contribute
nothing. -/
def blockTexts : List Block → List TextItem
  | [] => []
  | Block.head _ s :: bs => TextItem.headText s :: blockTexts bs
  | Block.para _ :: bs => blockTexts bs
  | Block.li _ s :: bs => TextItem.liText s :: blockTexts bs
  | Block.tbl rows :: bs => (rows.flatten.map TextItem.cellText) ++ blockTexts bs
  | Block.pic _ :: bs => blockTexts bs

/-- Remove one leading newline character from a string, when present. -/
def dropLeadNL (s : String) : String :=
  match s.data with
  | '\n' :: rest => String.mk rest
  | _ => s

/-- Discount the leading newline of heading texts (the DOCX exporter's level-1
spacing artifact); list-item and cell texts are untouched. -/
def normItem : TextItem → TextItem
  | TextItem.headText s => TextItem.headText (dropLeadNL s)
  | x => x

/-- The compared text sequence of a block stream, heading texts normalised by
`normItem`. -/
def normTexts (bs : List Block) : List TextItem :=
  (blockTexts bs).map normItem

/-- The ordered heading texts of a block stream. -/
def headsOf (bs : List Block) : List String :=
  bs.filterMap (fun b => match b with | Block.head _ s => some s | _ => none)

/-- The ordered list items of a block stream, each with its ordered-list
flag. -/
def lisOf (bs : List Block) : List (Bool × String) :=
  bs.filterMap (fun b => match b with | Block.li o s => some (o, s) | _ => none)

/-- A grid is rectangular when every row already has the grid's column
count (so the DOCX exporter's padding is the identity on it). -/
def isRectB (g : List (List String)) : Bool :=
  g.all (fun row => row.length == gridCols g)

/-- The heading scheme the result sections of both exporters actually follow
(the amended C2 claim): a text item at 1-based position `i` is headed
`2.4.i. title`; a table item is headed by its bare title; an image item is
headed by its bare title only when it has images and a non-empty title; the
position advances over every item regardless of kind. -/
def specResultHeads : Nat → List ResultItem → List String
  | _, [] => []
  | i, it :: rest =>
    (if it.kind = "text" then ["2.4." ++ toString i ++ ". " ++ it.title]
     else if it.kind = "table" then [it.title]
     else if it.kind = "image" then
       if effImages it ≠ [] ∧ it.title ≠ "" then [it.title] else []
     else [])
      ++ specResultHeads (i + 1) rest

/-- Persisted shape of a `TrialRow`: each key present or absent. -/
structure TrialRowDict where
  number : Option String := none
  issue : Option String := none
  reasons : Option String := none
deriving DecidableEq, Repr

/-- The `asdict` on a `TrialRow`. -/
def trialRowToDict (t : TrialRow) : TrialRowDict :=
  { number := some t.number, issue := some t.issue, reasons := some t.reasons }

/-- The `TrialRow(**th)`: requires every key (Python raises on a missing one). -/
def trialRowFromDict (d : TrialRowDict) : Option TrialRow :=
  match d.number, d.issue, d.reasons with
  | some n, some i, some rs => some ⟨n, i, rs⟩
  | _, _, _ => none

/-- Persisted shape of an `EmailEntry`. -/
structure EmailEntryDict where
  date : Option String := none
  customer : Option String := none
  correspondence : Option String := none
deriving DecidableEq, Repr

/-- The `asdict` on an `EmailEntry`. -/
def emailEntryToDict (e : EmailEntry) : EmailEntryDict :=
  { date := some e.date, customer := some e.customer,
    correspondence := some e.correspondence }

/-- The `EmailEntry(**e)`: requires every key. -/
def emailEntryFromDict (d : EmailEntryDict) : Option EmailEntry :=
  match d.date, d.customer, d.correspondence with
  | some dt, some c, some t => some ⟨dt, c, t⟩
  | _, _, _ => none

/-- Persisted shape of a `ResultItem`: each key present or absent; the
`image_path` key may also be present holding `None`. -/
structure ResultItemDict where
  title : Option String := none
  kind : Option String := none
  content : Option String := none
  image_path : Option (Option String) := none
  images : Option (List String) := none
  caption : Option String := none
  table_data : Option (List (List String)) := none
  table_style : Option String := none
deriving DecidableEq, Repr

/-- The `asdict` on a `ResultItem`. -/
def resultItemToDict (it : ResultItem) : ResultItemDict :=
  { title := some it.title, kind := some it.kind, content := some it.content,
    image_path := some it.image_path, images := some it.images,
    caption := some it.caption, table_data := some it.table_data,
    table_style := some it.table_style }

/-- The image-list back-compat preprocessing of `_load_from_dict`: a result
dict without an `images` key gets one, holding the one-element list of its
legacy `image_path` when that value is truthy (present, non-`None`,
non-empty) and the empty list otherwise; a dict that has the key is left
unchanged. -/
def fixImages (d : ResultItemDict) : ResultItemDict :=
  if d.images = none then
    { d with
      images := some (match d.image_path.getD none with
        | some p => if p ≠ "" then [p] else []
        | none => []) }
  else d

/-- The `ResultItem(**ri)`: `title` and `kind` are required, the remaining keys
fall back to the dataclass defaults. -/
def resultItemFromDict (d : ResultItemDict) : Option ResultItem :=
  match d.title, d.kind with
  | some t, some k =>
    some { title := t, kind := k, content := d.content.getD "",
           image_path := d.image_path.getD none, images := d.images.getD [],
           caption := d.caption.getD "", table_data := d.table_data.getD [],
           table_style := d.table_style.getD "Table Grid" }
  | _, _ => none

/-- Persisted `report_model` mapping: every `ReportModel` field may be
present or absent, plus the legacy `manuf_order_text` key. -/
structure ReportModelDict where
  project_title : Option String := none
  start_date : Option String := none
  report_date : Option String := none
  assigned_by : Option String := none
  bin_no : Option String := none
  researcher_name : Option String := none
  total_hours : Option String := none
  plain_summary : Option String := none
  objectives : Option (List String) := none
  methods_raw_materials : Option (List String) := none
  methods_instruments : Option (List String) := none
  methods_procedure : Option (List String) := none
  trial_history : Option (List TrialRowDict) := none
  trial_layout : Option String := none
  trial_docx_style : Option String := none
  results : Option (List ResultItemDict) := none
  conclusion : Option (List String) := none
  miscellaneous : Option String := none
  references : Option (List String) := none
  regulations : Option String := none
  label_req : Option String := none
  certification_req : Option String := none
  manuf_order_steps : Option (List String) := none
  manuf_order_text : Option String := none
  formulation_risk_text : Option String := none
  hazards_text : Option String := none
  equipment_text : Option String := none
  capex_text : Option String := none
  safety_assess_text : Option String := none
  raw_material_sourcing : Option String := none
  lims_setup : Option String := none
  stability_testing : Option String := none
  packaging_compatibility : Option String := none
  c_obj_problem : Option String := none
  smart_goals : Option SmartGoals := none
  c_specs : Option String := none
  c_expected_volume : Option String := none
  c_packaging_req : Option String := none
  c_raw_material_prefs : Option String := none
  c_sample_needed : Option String := none
  c_opportunity_timeline : Option String := none
  target_application : Option String := none
  customer_feedback : Option String := none
  tds_development : Option String := none
  email_correspondence : Option (List EmailEntryDict) := none
deriving DecidableEq, Repr

/-- The `report_model` entry `_to_dict` writes: `asdict` of the model, the
three structured lists dict-encoded; the legacy `manuf_order_text` key is
never written. -/
def reportModelToDict (r : ReportModel) : ReportModelDict :=
  { project_title := some r.project_title, start_date := some r.start_date,
    report_date := some r.report_date, assigned_by := some r.assigned_by,
    bin_no := some r.bin_no, researcher_name := some r.researcher_name,
    total_hours := some r.total_hours, plain_summary := some r.plain_summary,
    objectives := some r.objectives,
    methods_raw_materials := some r.methods_raw_materials,
    methods_instruments := some r.methods_instruments,
    methods_procedure := some r.methods_procedure,
    trial_history := some (r.trial_history.map trialRowToDict),
    trial_layout := some r.trial_layout,
    trial_docx_style := some r.trial_docx_style,
    results := some (r.results.map resultItemToDict),
    conclusion := some r.conclusion, miscellaneous := some r.miscellaneous,
    references := some r.references, regulations := some r.regulations,
    label_req := some r.label_req, certification_req := some r.certification_req,
    manuf_order_steps := some r.manuf_order_steps, manuf_order_text := none,
    formulation_risk_text := some r.formulation_risk_text,
    hazards_text := some r.hazards_text, equipment_text := some r.equipment_text,
    capex_text := some r.capex_text, safety_assess_text := some r.safety_assess_text,
    raw_material_sourcing := some r.raw_material_sourcing,
    lims_setup := some r.lims_setup, stability_testing := some r.stability_testing,
    packaging_compatibility := some r.packaging_compatibility,
    c_obj_problem := some r.c_obj_problem, smart_goals := some r.smart_goals,
    c_specs := some r.c_specs, c_expected_volume := some r.c_expected_volume,
    c_packaging_req := some r.c_packaging_req,
    c_raw_material_prefs := some r.c_raw_material_prefs,
    c_sample_needed := some r.c_sample_needed,
    c_opportunity_timeline := some r.c_opportunity_timeline,
    target_application := some r.target_application,
    customer_feedback := some r.customer_feedback,
    tds_development := some r.tds_development,
    email_correspondence := some (r.email_correspondence.map emailEntryToDict) }

/-- The `[TrialRow(**th) for th in ...]`: the first bad element aborts the load. -/
def loadTrialRows : List TrialRowDict → Option (List TrialRow)
  | [] => some []
  | d :: rest =>
    match trialRowFromDict d, loadTrialRows rest with
    | some t, some ts => some (t :: ts)
    | _, _ => none

/-- The `[ResultItem(**ri) for ri in results_in]`. -/
def loadResultItems : List ResultItemDict → Option (List ResultItem)
  | [] => some []
  | d :: rest =>
    match resultItemFromDict d, loadResultItems rest with
    | some t, some ts => some (t :: ts)
    | _, _ => none

/-- The `[EmailEntry(**e) for e in emails_in]`. -/
def loadEmailEntries : List EmailEntryDict → Option (List EmailEntry)
  | [] => some []
  | d :: rest =>
    match emailEntryFromDict d, loadEmailEntries rest with
    | some t, some ts => some (t :: ts)
    | _, _ => none

/-- The manufacturing-order back-compat of `_load_from_dict`: start from the
stored list (default empty); when that list is empty and the legacy
`manuf_order_text` value is truthy, replace it by the newline-split legacy
text. -/
def migratedManufSteps (rm : ReportModelDict) : List String :=
  let s := rm.manuf_order_steps.getD []
  if s = [] ∧ rm.manuf_order_text.getD "" ≠ "" then
    safe_split_lines (rm.manuf_order_text.getD "")
  else s

/-- The `ReportModel` reconstruction of `_load_from_dict`: image-list
preprocessing on each result dict, manufacturing-order migration, every
scalar and list read with its dataclass default, the three structured lists
rebuilt element-wise (`none` when any element lacks a required key, the
embedded image of the `try`/`except` around the load). -/
def loadReportModel (rm : ReportModelDict) : Option ReportModel :=
  match loadTrialRows (rm.trial_history.getD []),
        loadResultItems ((rm.results.getD []).map fixImages),
        loadEmailEntries (rm.email_correspondence.getD []) with
  | some th, some res, some em =>
    some { project_title := rm.project_title.getD "",
           start_date := rm.start_date.getD "",
           report_date := rm.report_date.getD "",
           assigned_by := rm.assigned_by.getD "",
           bin_no := rm.bin_no.getD "",
           researcher_name := rm.researcher_name.getD "",
           total_hours := rm.total_hours.getD "",
           plain_summary := rm.plain_summary.getD "",
           objectives := rm.objectives.getD [],
           methods_raw_materials := rm.methods_raw_materials.getD [],
           methods_instruments := rm.methods_instruments.getD [],
           methods_procedure := rm.methods_procedure.getD [],
           trial_history := th,
           trial_layout := rm.trial_layout.getD "Even columns",
           trial_docx_style := rm.trial_docx_style.getD "Table Grid",
           results := res,
           conclusion := rm.conclusion.getD [],
           miscellaneous := rm.miscellaneous.getD "",
           references := rm.references.getD [],
           regulations := rm.regulations.getD "",
           label_req := rm.label_req.getD "",
           certification_req := rm.certification_req.getD "",
           manuf_order_steps := migratedManufSteps rm,
           formulation_risk_text := rm.formulation_risk_text.getD "",
           hazards_text := rm.hazards_text.getD "",
           equipment_text := rm.equipment_text.getD "",
           capex_text := rm.capex_text.getD "",
           safety_assess_text := rm.safety_assess_text.getD "",
           raw_material_sourcing := rm.raw_material_sourcing.getD "",
           lims_setup := rm.lims_setup.getD "",
           stability_testing := rm.stability_testing.getD "",
           packaging_compatibility := rm.packaging_compatibility.getD "",
           c_obj_problem := rm.c_obj_problem.getD "",
           smart_goals := rm.smart_goals.getD {},
           c_specs := rm.c_specs.getD "",
           c_expected_volume := rm.c_expected_volume.getD "",
           c_packaging_req := rm.c_packaging_req.getD "",
           c_raw_material_prefs := rm.c_raw_material_prefs.getD "",
           c_sample_needed := rm.c_sample_needed.getD "",
           c_opportunity_timeline := rm.c_opportunity_timeline.getD "",
           target_application := rm.target_application.getD "",
           customer_feedback := rm.customer_feedback.getD "",
           tds_development := rm.tds_development.getD "",
           email_correspondence := em }
  | _, _, _ => none

/-- The `save()` closure of `_result_dialog`: the title falls back to
`"Untitled"` when blank; a text item stores the stripped editor text; a table
item stores the stripped raw paste, its inferred grid and the chosen style; a
non-text non-table selection stores the image list handed over by the image
manager and the stripped caption.  The remaining fields keep the dataclass
defaults. -/
def resultDialogSave (titleRaw kindSel textContent tableRaw tblStyle : String)
    (imgFiles : List String) (captionRaw : String) : ResultItem :=
  let title := if pyStrip titleRaw = "" then "Untitled" else pyStrip titleRaw
  if kindSel = "text" then
    { title := title, kind := "text", content := pyStrip textContent }
  else if kindSel = "table" then
    let raw := pyStrip tableRaw
    { title := title, kind := "table", content := raw,
      table_data := parse_table_text raw, table_style := tblStyle }
  else
    { title := title, kind := "image", images := imgFiles,
      caption := pyStrip captionRaw }

/-- The exactly-one-shape condition of the spec, read off a `ResultItem`: the
fields of every shape other than the kind-selected one are empty (for a table
item the `content` field holds the raw pasted text and belongs to the table
shape), and the kind is one of the three tags. -/
def otherShapesEmpty (it : ResultItem) : Bool :=
  if it.kind = "text" then
    it.table_data.isEmpty && it.images.isEmpty && (it.caption == "")
  else if it.kind = "table" then
    it.images.isEmpty && (it.caption == "")
  else if it.kind = "image" then
    (it.content == "") && it.table_data.isEmpty
  else false

/-- A value the `ResultItem` dataclass admits whose text, table and image
shapes are all populated at once: nothing at construction rejects it. -/
def badResultItem : ResultItem :=
  { title := "X", kind := "text", content := "abc",
    images := ["p.png"], caption := "c", table_data := [["1"]] }

/-- The export format selector (`self.export_fmt`). -/
inductive ExportFormat where
  | docx
  | pdf
  | both
deriving DecidableEq, Repr

/-- Ambient facts `_generate` consults: which optional backends import
successfully, whether the DOCX→PDF conversion call succeeds, the filesystem
probe, and today's ISO date. -/
structure GenEnv where
  hasDocxLib : Bool := true
  hasDocx2pdf : Bool := false
  hasReportlab : Bool := true
  convertOk : Bool := true
  isFile : String → Bool := fun _ => false
  today : String := ""

/-- The generate-time configuration read from the UI. -/
structure GenCfg where
  out_dir : String := ""
  want : ExportFormat := ExportFormat.both

/-- The externally visible side effects of one `_generate` call, in order. -/
inductive GenAction where
  | warnMissingTitle
  | makeOutDir (dir : String)
  | errorNoDocxLib
  | writeDocx (path : String)
  | convertToPdf (src dst : String)
  | writePdfBasic (path : String)
  | errorNoReportlab
deriving DecidableEq, Repr

/-- The `_export_pdf_basic` as an effect: it writes the PDF when reportlab is
importable and otherwise only reports the missing backend. -/
def pdfBasicActions (env : GenEnv) (path : String) : List GenAction :=
  if env.hasReportlab then [GenAction.writePdfBasic path]
  else [GenAction.errorNoReportlab]

/-- The effect trace of `_generate`: an empty collected title is rejected
with a warning before anything else (no directory, no file); otherwise the
output directory is created, the DOCX branch runs when requested (aborting
everything if python-docx is missing), then the PDF branch runs when
requested, converting the written DOCX when docx2pdf is available and the
file exists, falling back to the direct PDF renderer on conversion failure or
when conversion is unavailable.  (`os.sep` is modelled as `"/"`.) -/
def generate (r : ReportModel) (env : GenEnv) (cfg : GenCfg) : List GenAction :=
  if r.project_title = "" then [GenAction.warnMissingTitle]
  else
    let outDir := pyStrip cfg.out_dir
    let base := (pyStrip r.project_title).replace "/" "_" ++ "_" ++ env.today
    let docxPath := outDir ++ "/" ++ base ++ ".docx"
    let pdfPath := outDir ++ "/" ++ base ++ ".pdf"
    let pdfActs :=
      if cfg.want = ExportFormat.pdf ∨ cfg.want = ExportFormat.both then
        if env.hasDocx2pdf && env.isFile docxPath then
          if env.convertOk then [GenAction.convertToPdf docxPath pdfPath]
          else GenAction.convertToPdf docxPath pdfPath :: pdfBasicActions env pdfPath
        else pdfBasicActions env pdfPath
      else []
    GenAction.makeOutDir outDir ::
      (if cfg.want = ExportFormat.docx ∨ cfg.want = ExportFormat.both then
        if env.hasDocxLib then GenAction.writeDocx docxPath :: pdfActs
        else [GenAction.errorNoDocxLib]
      else pdfActs)

/-- A model with one objective and one manufacturing-order step, the
input of the list-orderedness counterexample. -/
def r3 : ReportModel :=
  { objectives := ["o1"], manuf_order_steps := ["step1"] }

/-- One table-kind result item with a bare title, the input of the
result-numbering counterexample. -/
def tableOnlyResults : List ResultItem :=
  [{ title := "T", kind := "table", table_data := [["x"]] }]

/-- A persisted mapping whose `manuf_order_steps` key is present and empty
while the legacy `manuf_order_text` key is non-empty, the input of the
migration counterexample. -/
def rmDictLegacy : ReportModelDict :=
  { manuf_order_steps := some [], manuf_order_text := some "a\nb" }

/-- A persisted result dict lacking the `images` key but carrying a legacy
`image_path`, the input of the image back-compat witness. -/
def riDictLegacy : ResultItemDict :=
  { title := some "pic", kind := some "image", image_path := some (some "x.png") }

/-- The constantly-false filesystem probe used for concrete inputs. -/
def noFile : String → Bool := fun _ => false

/-- No two consecutive whitespace characters occur in the character list:
the inputs on which `re.split(r"\s{2,}", ...)` finds nothing to split. -/
def noTwoWs : List Char → Bool
  | [] => true
  | [_] => true
  | a :: b :: rest => !(pyIsSpace a && pyIsSpace b) && noTwoWs (b :: rest)

/-- The ordered heading levels of a block stream. -/
def headLevels (bs : List Block) : List Nat :=
  bs.filterMap (fun b => match b with | Block.head l _ => some l | _ => none)

/-- Every heading of the block stream is a level-3 heading. -/
def headsAreLevel3 (bs : List Block) : Bool :=
  bs.all (fun b => match b with | Block.head l _ => l == 3 | _ => true)

theorem blockTexts_append (a b : List Block) :
    blockTexts (a ++ b) = blockTexts a ++ blockTexts b := by
  induction a with
  | nil => rfl
  | cons x xs ih => cases x <;> simp [blockTexts, ih]

theorem normTexts_append (a b : List Block) :
    normTexts (a ++ b) = normTexts a ++ normTexts b := by
  simp [normTexts, blockTexts_append]

theorem blockTexts_li_map (o : Bool) (l : List String) :
    blockTexts (l.map (Block.li o)) = l.map TextItem.liText := by
  induction l with
  | nil => rfl
  | cons x xs ih => simp [blockTexts, ih]

theorem blockTexts_para_map (l : List String) :
    blockTexts (l.map Block.para) = [] := by
  induction l with
  | nil => rfl
  | cons x xs ih => simp [blockTexts, ih]

theorem noTwoWs_tail (c : Char) (l : List Char) (h : noTwoWs (c :: l) = true) :
    noTwoWs l = true := by
  cases l with
  | nil => rfl
  | cons b rest =>
    have := h
    simp only [noTwoWs, Bool.and_eq_true] at this
    exact this.2

theorem takeWhile_ws_len_le_one (l : List Char) (h : noTwoWs l = true) :
    (l.takeWhile pyIsSpace).length ≤ 1 := by
  cases l with
  | nil => simp [List.takeWhile]
  | cons a t =>
    cases t with
    | nil => by_cases ha : pyIsSpace a <;> simp [List.takeWhile, ha]
    | cons b t2 =>
      by_cases ha : pyIsSpace a
      · have hb : pyIsSpace b = false := by
          simp only [noTwoWs, Bool.and_eq_true, Bool.not_eq_true'] at h
          rcases h with ⟨h1, _⟩
          cases hpb : pyIsSpace b
          · rfl
          · rw [ha, hpb] at h1; cases h1
        simp [List.takeWhile, ha, hb]
      · simp [List.takeWhile, ha]

theorem wsfold_noTwoWs (l : List Char) (h : noTwoWs l = true) :
    l.foldr wsRunStep ([], [[]]) = (l.takeWhile pyIsSpace, [l.dropWhile pyIsSpace]) := by
  induction l with
  | nil => rfl
  | cons c rest ih =>
    have hr := noTwoWs_tail c rest h
    rw [List.foldr_cons, ih hr]
    by_cases hc : pyIsSpace c
    · simp [wsRunStep, hc, List.takeWhile, List.dropWhile]
    · have hlen : (rest.takeWhile pyIsSpace).length ≤ 1 :=
        takeWhile_ws_len_le_one rest hr
      have h2 : ¬ (2 ≤ (rest.takeWhile pyIsSpace).length) := by omega
      simp [wsRunStep, hc, h2, List.takeWhile, List.dropWhile,
        List.takeWhile_append_dropWhile]

theorem noTwoWs_wsRunSplit (l : List Char) (h : noTwoWs l = true) :
    wsRunSplit l = [l] := by
  unfold wsRunSplit
  rw [wsfold_noTwoWs l h]
  have hlen := takeWhile_ws_len_le_one l h
  have h2 : ¬ (2 ≤ (l.takeWhile pyIsSpace).length) := by omega
  simp [h2, List.takeWhile_append_dropWhile]

theorem worstCaseRow (ln : String) (h : noTwoWs (pyStrip ln).data = true) :
    (let parts := ((wsRunSplit (pyStrip ln).data).map String.mk).filter
        (fun p => p ≠ "")
     if parts ≠ [] then parts else [pyStrip ln]) = [pyStrip ln] := by
  rw [noTwoWs_wsRunSplit _ h]
  by_cases hln : pyStrip ln = ""
  · simp [hln]
  · have hmk : String.mk (pyStrip ln).data = pyStrip ln := rfl
    simp [hmk, hln]

/-- C4: delimiter priority of table-text inference on the three specified
inputs: comma-sniffed, tab-sniffed, and whitespace-run split. -/
theorem c4_delimiter_priority :
    parse_table_text "a,b,c\n1,2,3" = [["a", "b", "c"], ["1", "2", "3"]] ∧
    parse_table_text "a\tb\n1\t2" = [["a", "b"], ["1", "2"]] ∧
    parse_table_text "Name      Score\nAda       10" =
      [["Name", "Score"], ["Ada", "10"]] := by
  refine ⟨by decide, by decide, by decide⟩

/-- C5: table-text inference is total — it is a function returning a grid on
every string — and in the worst case (sniffing falls through, no tab, no line
with a run of two or more whitespace characters) it degrades to exactly one
trimmed cell per line; empty input yields the empty grid. -/
theorem c5_parse_total_worst_case (s : String) :
    (stripNLs s = "" → parse_table_text s = []) ∧
    (stripNLs s ≠ "" →
      sniffStage (stripNLs s) = none →
      (stripNLs s).data.any (fun c => c = '\t') = false →
      (∀ ln ∈ pySplitLines (stripNLs s), noTwoWs (pyStrip ln).data = true) →
      parse_table_text s =
        (pySplitLines (stripNLs s)).map (fun ln => [pyStrip ln])) := by
  constructor
  · intro h
    simp [parse_table_text, h]
  · intro h0 h1 h2 h3
    simp only [parse_table_text, h1]
    rw [if_neg h0]
    simp only [h2, Bool.false_eq_true, if_false]
    exact List.map_congr_left (fun ln hln => worstCaseRow ln (h3 ln hln))

/-- Closed instance of the worst-case degradation, discharging every
hypothesis of the totality theorem at a concrete input. -/
theorem c5_parse_total_worst_case_witness :
    parse_table_text "line1\nline2\nline3" = [["line1"], ["line2"], ["line3"]] := by
  have h := (c5_parse_total_worst_case "line1\nline2\nline3").2
    (by decide) (by decide) (by decide) (by decide)
  rw [h]
  decide

theorem loadTrialRows_roundtrip (l : List TrialRow) :
    loadTrialRows (l.map trialRowToDict) = some l := by
  induction l with
  | nil => rfl
  | cons t ts ih => simp [loadTrialRows, trialRowToDict, trialRowFromDict, ih]

theorem loadEmailEntries_roundtrip (l : List EmailEntry) :
    loadEmailEntries (l.map emailEntryToDict) = some l := by
  induction l with
  | nil => rfl
  | cons e es ih =>
    simp [loadEmailEntries, emailEntryToDict, emailEntryFromDict, ih]

theorem fixImages_toDict (it : ResultItem) :
    fixImages (resultItemToDict it) = resultItemToDict it := by
  simp [fixImages, resultItemToDict]

theorem resultItemFromDict_toDict (it : ResultItem) :
    resultItemFromDict (resultItemToDict it) = some it := by
  simp [resultItemFromDict, resultItemToDict]

theorem loadResultItems_roundtrip (l : List ResultItem) :
    loadResultItems (l.map (fixImages ∘ resultItemToDict)) = some l := by
  induction l with
  | nil => rfl
  | cons t ts ih =>
    simp only [List.map_cons, loadResultItems, Function.comp_apply,
      fixImages_toDict, resultItemFromDict_toDict, ih]

/-- C6: serialising a `ReportModel` with `_to_dict`'s `report_model` encoding
and loading it back with `_load_from_dict`'s reconstruction returns the very
same model — in particular every ordered list (objectives, trial history,
result items, email correspondence) in the original order with the original
content. -/
theorem c6_roundtrip (r : ReportModel) :
    loadReportModel (reportModelToDict r) = some r := by
  simp [loadReportModel, reportModelToDict, loadTrialRows_roundtrip,
    loadEmailEntries_roundtrip, loadResultItems_roundtrip, List.map_map,
    migratedManufSteps]

/-- C7 counterexample: a persisted mapping whose `manuf_order_steps` key is
present (holding the empty list) next to a non-empty legacy
`manuf_order_text`.  The claim's `otherwise the stored manuf_order_steps list
is used as-is` demands the empty list, but the loader migrates the legacy
text. -/
theorem c7_counterexample :
    rmDictLegacy.manuf_order_steps = some [] ∧
    (loadReportModel rmDictLegacy).map (fun m => m.manuf_order_steps) =
      some ["a", "b"] ∧
    (loadReportModel rmDictLegacy).map (fun m => m.manuf_order_steps) ≠
      some (rmDictLegacy.manuf_order_steps.getD []) := by
  refine ⟨by decide, by decide, by decide⟩

/-- C7 amended: the migration triggers whenever the stored steps list is
*empty* — absent or present-but-empty — and the legacy text is non-empty, in
which case the loaded steps are `safe_split_lines` of the legacy text
(trimmed lines, blanks dropped); otherwise the stored list is used as-is. -/
theorem c7_manuf_migration (rm : ReportModelDict) (r : ReportModel)
    (h : loadReportModel rm = some r) :
    r.manuf_order_steps =
      (if rm.manuf_order_steps.getD [] = [] ∧ rm.manuf_order_text.getD "" ≠ "" then
        safe_split_lines (rm.manuf_order_text.getD "")
      else rm.manuf_order_steps.getD []) := by
  unfold loadReportModel at h
  split at h
  · cases h
    rfl
  · cases h

/-- Closed instance of the migration theorem at a concrete mapping with an
empty stored list and a two-line legacy text. -/
theorem c7_manuf_migration_witness :
    ∃ r, loadReportModel rmDictLegacy = some r ∧ r.manuf_order_steps = ["a", "b"] := by
  cases hl : loadReportModel rmDictLegacy with
  | none => exact absurd hl (by decide)
  | some r =>
    have h := c7_manuf_migration rmDictLegacy r hl
    refine ⟨r, rfl, ?_⟩
    rw [h]
    decide

/-- C8: an empty collected project title makes `_generate` stop with the
missing-title warning alone: no output directory is created, neither exporter
runs, no conversion is attempted, no file is written. -/
theorem c8_empty_title_rejected (r : ReportModel) (env : GenEnv) (cfg : GenCfg)
    (h : r.project_title = "") :
    generate r env cfg = [GenAction.warnMissingTitle] := by
  simp [generate, h]

/-- Closed instance of the generate-time rejection on the empty model. -/
theorem c8_empty_title_rejected_witness :
    generate {} {} {} = [GenAction.warnMissingTitle] :=
  c8_empty_title_rejected {} {} {} rfl

/-- C9 counterexample: the `ResultItem` dataclass admits — with no
construction-time validation to stop it — a value whose text, table and image
shapes are populated at once. -/
theorem c9_counterexample : otherShapesEmpty badResultItem = false := by
  decide

/-- C9 amended: `ResultItem` itself validates nothing, but the result
dialog's save path — the only in-app constructor — populates only the fields
of the kind-selected shape, leaving every other shape's fields at their empty
defaults. -/
theorem c9_dialog_one_shape (titleRaw kindSel textContent tableRaw tblStyle : String)
    (imgFiles : List String) (captionRaw : String) :
    otherShapesEmpty
      (resultDialogSave titleRaw kindSel textContent tableRaw tblStyle imgFiles captionRaw)
      = true := by
  by_cases ht : kindSel = "text"
  · simp [resultDialogSave, otherShapesEmpty, ht]
  · by_cases hb : kindSel = "table"
    · simp [resultDialogSave, otherShapesEmpty, ht, hb]
    · simp [resultDialogSave, otherShapesEmpty, ht, hb]

/-- C10: loading a persisted result dict without an `images` key sets the key
to the one-element list of the legacy `image_path` when that value is
non-empty and to the empty list otherwise; a dict that already carries the
key is left entirely unchanged. -/
theorem c10_images_backcompat (d : ResultItemDict) :
    (d.images = none →
      fixImages d =
        { d with
          images := some (match d.image_path.getD none with
            | some p => if p ≠ "" then [p] else []
            | none => []) }) ∧
    (∀ l, d.images = some l → fixImages d = d) := by
  constructor
  · intro h
    simp [fixImages, h]
  · intro l h
    simp [fixImages, h]

/-- Closed instance of the image back-compat behaviour on a dict lacking the
`images` key and carrying a non-empty legacy path. -/
theorem c10_images_backcompat_witness :
    fixImages riDictLegacy = { riDictLegacy with images := some ["x.png"] } := by
  have h := (c10_images_backcompat riDictLegacy).1 rfl
  rw [h]
  decide

theorem headsOf_append (a b : List Block) :
    headsOf (a ++ b) = headsOf a ++ headsOf b :=
  List.filterMap_append a b _

theorem headsOf_para_map (l : List String) :
    headsOf (l.map Block.para) = [] := by
  induction l with
  | nil => rfl
  | cons x xs ih => exact ih

theorem headsOf_pic_caption (imgs : List String) (isFile : String → Bool)
    (cap : String) :
    headsOf (imgs.flatMap (fun p =>
      if p ≠ "" && isFile p then
        Block.pic p :: (if cap ≠ "" then [Block.para cap] else [])
      else [])) = [] := by
  induction imgs with
  | nil => rfl
  | cons p ps ih =>
    rw [List.flatMap_cons, headsOf_append, ih, List.append_nil]
    by_cases h : p ≠ "" && isFile p
    · rw [if_pos h]
      by_cases hc : cap ≠ ""
      · rw [if_pos hc]; rfl
      · rw [if_neg hc]; rfl
    · rw [if_neg h]; rfl

theorem docxResultBlocks_heads (isFile : String → Bool) (i : Nat) (it : ResultItem) :
    headsOf (docxResultBlocks isFile i it) =
      (if it.kind = "text" then ["2.4." ++ toString i ++ ". " ++ it.title]
       else if it.kind = "table" then [it.title]
       else if it.kind = "image" then
         if effImages it ≠ [] ∧ it.title ≠ "" then [it.title] else []
       else []) := by
  unfold docxResultBlocks
  by_cases ht : it.kind = "text"
  · rw [if_pos ht, if_pos ht]
    show ("2.4." ++ toString i ++ ". " ++ it.title)
        :: headsOf ((safe_split_lines it.content).map Block.para)
      = ["2.4." ++ toString i ++ ". " ++ it.title]
    rw [headsOf_para_map]
  · rw [if_neg ht, if_neg ht]
    by_cases hb : it.kind = "table"
    · rw [if_pos hb, if_pos hb]
      by_cases hd : effTableData it ≠ []
      · rw [if_pos hd]; rfl
      · rw [if_neg hd]; rfl
    · rw [if_neg hb, if_neg hb]
      by_cases hi : it.kind = "image"
      · rw [if_pos hi, if_pos hi]
        by_cases him : effImages it ≠ []
        · rw [if_pos him, headsOf_append, headsOf_pic_caption, List.append_nil]
          by_cases htt : it.title ≠ ""
          · rw [if_pos htt, if_pos (And.intro him htt)]; rfl
          · rw [if_neg htt, if_neg (fun h => htt h.2)]; rfl
        · rw [if_neg him, if_neg (fun h => him h.1)]; rfl
      · rw [if_neg hi, if_neg hi]; rfl

theorem pdfResultBlocks_heads (isFile : String → Bool) (i : Nat) (it : ResultItem) :
    headsOf (pdfResultBlocks isFile i it) =
      (if it.kind = "text" then ["2.4." ++ toString i ++ ". " ++ it.title]
       else if it.kind = "table" then [it.title]
       else if it.kind = "image" then
         if effImages it ≠ [] ∧ it.title ≠ "" then [it.title] else []
       else []) := by
  unfold pdfResultBlocks
  by_cases ht : it.kind = "text"
  · rw [if_pos ht, if_pos ht]; rfl
  · rw [if_neg ht, if_neg ht]
    by_cases hb : it.kind = "table"
    · rw [if_pos hb, if_pos hb]
      by_cases hd : effTableData it ≠ []
      · rw [if_pos hd]; rfl
      · rw [if_neg hd]; rfl
    · rw [if_neg hb, if_neg hb]
      by_cases hi : it.kind = "image"
      · rw [if_pos hi, if_pos hi]
        by_cases him : effImages it ≠ []
        · rw [if_pos him, headsOf_append, headsOf_pic_caption, List.append_nil]
          by_cases htt : it.title ≠ ""
          · rw [if_pos htt, if_pos (And.intro him htt)]; rfl
          · rw [if_neg htt, if_neg (fun h => htt h.2)]; rfl
        · rw [if_neg him, if_neg (fun h => him h.1)]; rfl
      · rw [if_neg hi, if_neg hi]; rfl

theorem headsAreLevel3_append (a b : List Block) :
    headsAreLevel3 (a ++ b) = (headsAreLevel3 a && headsAreLevel3 b) := by
  simp [headsAreLevel3, List.all_append]

theorem level3_para_map (l : List String) :
    headsAreLevel3 (l.map Block.para) = true := by
  induction l with
  | nil => rfl
  | cons x xs ih =>
    rw [List.map_cons]
    simp [headsAreLevel3]

theorem level3_pic_caption (imgs : List String) (isFile : String → Bool)
    (cap : String) :
    headsAreLevel3 (imgs.flatMap (fun p =>
      if p ≠ "" && isFile p then
        Block.pic p :: (if cap ≠ "" then [Block.para cap] else [])
      else [])) = true := by
  induction imgs with
  | nil => rfl
  | cons p ps ih =>
    rw [List.flatMap_cons, headsAreLevel3_append, ih, Bool.and_true]
    by_cases h : p ≠ "" && isFile p
    · rw [if_pos h]
      by_cases hc : cap ≠ ""
      · rw [if_pos hc]; rfl
      · rw [if_neg hc]; rfl
    · rw [if_neg h]; rfl

theorem docxResultBlocks_level3 (isFile : String → Bool) (i : Nat) (it : ResultItem) :
    headsAreLevel3 (docxResultBlocks isFile i it) = true := by
  unfold docxResultBlocks
  by_cases ht : it.kind = "text"
  · rw [if_pos ht]
    simp [headsAreLevel3]
  · rw [if_neg ht]
    by_cases hb : it.kind = "table"
    · rw [if_pos hb]
      by_cases hd : effTableData it ≠ []
      · rw [if_pos hd]; rfl
      · rw [if_neg hd]; rfl
    · rw [if_neg hb]
      by_cases hi : it.kind = "image"
      · rw [if_pos hi]
        by_cases him : effImages it ≠ []
        · rw [if_pos him, headsAreLevel3_append, level3_pic_caption,
            Bool.and_true]
          by_cases htt : it.title ≠ ""
          · rw [if_pos htt]; rfl
          · rw [if_neg htt]; rfl
        · rw [if_neg him]; rfl
      · rw [if_neg hi]; rfl

theorem pdfResultBlocks_level3 (isFile : String → Bool) (i : Nat) (it : ResultItem) :
    headsAreLevel3 (pdfResultBlocks isFile i it) = true := by
  unfold pdfResultBlocks
  by_cases ht : it.kind = "text"
  · rw [if_pos ht]; rfl
  · rw [if_neg ht]
    by_cases hb : it.kind = "table"
    · rw [if_pos hb]
      by_cases hd : effTableData it ≠ []
      · rw [if_pos hd]; rfl
      · rw [if_neg hd]; rfl
    · rw [if_neg hb]
      by_cases hi : it.kind = "image"
      · rw [if_pos hi]
        by_cases him : effImages it ≠ []
        · rw [if_pos him, headsAreLevel3_append, level3_pic_caption,
            Bool.and_true]
          by_cases htt : it.title ≠ ""
          · rw [if_pos htt]; rfl
          · rw [if_neg htt]; rfl
        · rw [if_neg him]; rfl
      · rw [if_neg hi]; rfl

/-- C2 counterexample: a table-kind result item in first position is headed
by its bare title, not by the claimed sequence-numbered `2.4.1.` heading, in
both renderers. -/
theorem c2_counterexample :
    headsOf (docxResultsList noFile 1 tableOnlyResults) = ["T"] ∧
    headsOf (pdfResultsList noFile 1 tableOnlyResults) = ["T"] ∧
    ("T" : String) ≠ "2.4.1. T" := by
  refine ⟨by decide, by decide, by decide⟩

/-- C2 amended: in both renderers the result items are processed in stored
order with a position counter advancing over every item regardless of kind,
every emitted heading is level 3, but only text-kind items carry the
`2.4.N.` sequence number; a table item is headed by its bare title, and an
image item by its bare title only when it has images and a non-empty
title. -/
theorem c2_result_headings (isFile : String → Bool) (items : List ResultItem)
    (i : Nat) :
    headsOf (docxResultsList isFile i items) = specResultHeads i items ∧
    headsOf (pdfResultsList isFile i items) = specResultHeads i items ∧
    headsAreLevel3 (docxResultsList isFile i items) = true ∧
    headsAreLevel3 (pdfResultsList isFile i items) = true := by
  induction items generalizing i with
  | nil => exact ⟨rfl, rfl, rfl, rfl⟩
  | cons it rest ih =>
    obtain ⟨ih1, ih2, ih3, ih4⟩ := ih (i + 1)
    refine ⟨?_, ?_, ?_, ?_⟩
    · rw [docxResultsList, headsOf_append, ih1, docxResultBlocks_heads,
        specResultHeads]
    · rw [pdfResultsList, headsOf_append, ih2, pdfResultBlocks_heads,
        specResultHeads]
    · rw [docxResultsList, headsAreLevel3_append, ih3,
        docxResultBlocks_level3, Bool.true_and]
    · rw [pdfResultsList, headsAreLevel3_append, ih4,
        pdfResultBlocks_level3, Bool.true_and]

theorem lisOf_append (a b : List Block) :
    lisOf (a ++ b) = lisOf a ++ lisOf b :=
  List.filterMap_append a b _

theorem lisOf_li_map (o : Bool) (l : List String) :
    lisOf (l.map (Block.li o)) = l.map (fun s => (o, s)) := by
  induction l with
  | nil => rfl
  | cons x xs ih => exact congrArg (List.cons (o, x)) ih

theorem lisOf_para_map (l : List String) :
    lisOf (l.map Block.para) = [] := by
  induction l with
  | nil => rfl
  | cons x xs ih => exact ih

theorem lisOf_pic_caption (imgs : List String) (isFile : String → Bool)
    (cap : String) :
    lisOf (imgs.flatMap (fun p =>
      if p ≠ "" && isFile p then
        Block.pic p :: (if cap ≠ "" then [Block.para cap] else [])
      else [])) = [] := by
  induction imgs with
  | nil => rfl
  | cons p ps ih =>
    rw [List.flatMap_cons, lisOf_append, ih, List.append_nil]
    by_cases h : p ≠ "" && isFile p
    · rw [if_pos h]
      by_cases hc : cap ≠ ""
      · rw [if_pos hc]; rfl
      · rw [if_neg hc]; rfl
    · rw [if_neg h]; rfl

theorem docxResultBlocks_lis (isFile : String → Bool) (i : Nat) (it : ResultItem) :
    lisOf (docxResultBlocks isFile i it) = [] := by
  unfold docxResultBlocks
  by_cases ht : it.kind = "text"
  · rw [if_pos ht]
    exact lisOf_para_map (safe_split_lines it.content)
  · rw [if_neg ht]
    by_cases hb : it.kind = "table"
    · rw [if_pos hb]
      by_cases hd : effTableData it ≠ []
      · rw [if_pos hd]; rfl
      · rw [if_neg hd]; rfl
    · rw [if_neg hb]
      by_cases hi : it.kind = "image"
      · rw [if_pos hi]
        by_cases him : effImages it ≠ []
        · rw [if_pos him, lisOf_append, lisOf_pic_caption, List.append_nil]
          by_cases htt : it.title ≠ ""
          · rw [if_pos htt]; rfl
          · rw [if_neg htt]; rfl
        · rw [if_neg him]; rfl
      · rw [if_neg hi]; rfl

theorem pdfResultBlocks_lis (isFile : String → Bool) (i : Nat) (it : ResultItem) :
    lisOf (pdfResultBlocks isFile i it) = [] := by
  unfold pdfResultBlocks
  by_cases ht : it.kind = "text"
  · rw [if_pos ht]; rfl
  · rw [if_neg ht]
    by_cases hb : it.kind = "table"
    · rw [if_pos hb]
      by_cases hd : effTableData it ≠ []
      · rw [if_pos hd]; rfl
      · rw [if_neg hd]; rfl
    · rw [if_neg hb]
      by_cases hi : it.kind = "image"
      · rw [if_pos hi]
        by_cases him : effImages it ≠ []
        · rw [if_pos him, lisOf_append, lisOf_pic_caption, List.append_nil]
          by_cases htt : it.title ≠ ""
          · rw [if_pos htt]; rfl
          · rw [if_neg htt]; rfl
        · rw [if_neg him]; rfl
      · rw [if_neg hi]; rfl

theorem lisOf_results_docx (isFile : String → Bool) (items : List ResultItem) :
    ∀ i, lisOf (docxResultsList isFile i items) = [] := by
  induction items with
  | nil => intro i; rfl
  | cons it rest ih =>
    intro i
    rw [docxResultsList, lisOf_append, docxResultBlocks_lis, ih (i + 1)]
    rfl

theorem lisOf_results_pdf (isFile : String → Bool) (items : List ResultItem) :
    ∀ i, lisOf (pdfResultsList isFile i items) = [] := by
  induction items with
  | nil => intro i; rfl
  | cons it rest ih =>
    intro i
    rw [pdfResultsList, lisOf_append, pdfResultBlocks_lis, ih (i + 1)]
    rfl

theorem lisOf_nil : lisOf [] = [] := rfl

theorem lisOf_head (l : Nat) (s : String) (bs : List Block) :
    lisOf (Block.head l s :: bs) = lisOf bs := rfl

theorem lisOf_para (s : String) (bs : List Block) :
    lisOf (Block.para s :: bs) = lisOf bs := rfl

theorem lisOf_tbl (g : List (List String)) (bs : List Block) :
    lisOf (Block.tbl g :: bs) = lisOf bs := rfl

theorem lisOf_li (o : Bool) (s : String) (bs : List Block) :
    lisOf (Block.li o s :: bs) = (o, s) :: lisOf bs := rfl

theorem lisOf_if_para (c : Prop) [Decidable c] (s : String) :
    lisOf (if c then [Block.para s] else []) = [] := by
  by_cases h : c
  · rw [if_pos h]; rfl
  · rw [if_neg h]; rfl

theorem lisOf_if_tbl (c : Prop) [Decidable c] (g : List (List String)) :
    lisOf (if c then [Block.tbl g] else []) = [] := by
  by_cases h : c
  · rw [if_pos h]; rfl
  · rw [if_neg h]; rfl

theorem lisOf_smartParas (g : SmartGoals) (b : Bool) :
    lisOf (smartParas g b) = [] := by
  unfold smartParas
  simp only [List.flatMap_cons, List.flatMap_nil, lisOf_append, lisOf_if_para,
    List.append_nil]

theorem map_of_ifNonempty {β : Type} (l : List String) (f : String → β) :
    (if l ≠ [] then l.map f else []) = l.map f := by
  by_cases h : l ≠ []
  · rw [if_pos h]
  · rw [if_neg h]
    have hl : l = [] := by
      by_cases h2 : l = []
      · exact h2
      · exact absurd h2 h
    rw [hl]
    rfl

theorem lis_docxSegGeneral (r : ReportModel) :
    lisOf (docxSegGeneral incAll r) = [] := rfl

theorem lis_docxSegPlain (r : ReportModel) :
    lisOf (docxSegPlain incAll r) = [] := rfl

theorem lis_docxSegObjectives (r : ReportModel) :
    lisOf (docxSegObjectives incAll r) = r.objectives.map (fun s => (true, s)) :=
  lisOf_li_map true r.objectives

theorem lis_docxSegMethods (r : ReportModel) :
    lisOf (docxSegMethods incAll r) =
      r.methods_raw_materials.map (fun s => (false, s))
        ++ r.methods_instruments.map (fun s => (false, s))
        ++ r.methods_procedure.map (fun s => (false, s)) := by
  unfold docxSegMethods
  rw [if_pos (show incAll.t_methods = true from rfl),
    if_pos (show incAll.t_rm = true from rfl),
    if_pos (show incAll.t_ins = true from rfl),
    if_pos (show incAll.t_proc = true from rfl),
    if_pos (show incAll.t_trial = true from rfl)]
  simp only [lisOf_head, lisOf_append, lisOf_li_map, lisOf_if_tbl,
    List.append_nil]

theorem lis_docxSegResults (r : ReportModel) (isFile : String → Bool) :
    lisOf (docxSegResults incAll r isFile) = [] :=
  lisOf_results_docx isFile r.results 1

theorem lis_docxSegConc (r : ReportModel) :
    lisOf (docxSegConc incAll r) = r.conclusion.map (fun s => (false, s)) :=
  lisOf_li_map false r.conclusion

theorem lis_docxSegMisc (r : ReportModel) :
    lisOf (docxSegMisc incAll r) = [] := rfl

theorem lis_docxSegRefs (r : ReportModel) :
    lisOf (docxSegRefs incAll r) = r.references.map (fun s => (false, s)) :=
  lisOf_li_map false r.references

theorem lis_docxSegReg (r : ReportModel) :
    lisOf (docxSegReg incAll r) = [] := rfl

theorem lis_docxSegScale (r : ReportModel) :
    lisOf (docxSegScale incAll r) = r.manuf_order_steps.map (fun s => (false, s)) := by
  unfold docxSegScale
  rw [if_pos (show incAll.sec_scale = true from rfl)]
  simp only [lisOf_append, lisOf_head, lisOf_para, lisOf_nil, lisOf_li_map,
    List.append_nil, List.nil_append]

theorem lis_docxSegQuality (r : ReportModel) :
    lisOf (docxSegQuality incAll r) = [] := rfl

theorem lis_docxSegCommercial (r : ReportModel) :
    lisOf (docxSegCommercial incAll r) = [] := by
  unfold docxSegCommercial
  rw [if_pos (show incAll.sec_commercial = true from rfl)]
  simp only [lisOf_append, lisOf_head, lisOf_para, lisOf_nil, lisOf_smartParas,
    lisOf_if_tbl, List.append_nil, List.nil_append]

theorem lis_pdfSegGeneral (r : ReportModel) :
    lisOf (pdfSegGeneral incAll r) = [] := rfl

theorem lis_pdfSegPlain (r : ReportModel) :
    lisOf (pdfSegPlain incAll r) = [] := rfl

theorem lis_pdfSegObjectives (r : ReportModel) :
    lisOf (pdfSegObjectives incAll r) = r.objectives.map (fun s => (true, s)) := by
  unfold pdfSegObjectives
  rw [if_pos (show incAll.t_objectives = true from rfl), lisOf_head, map_of_ifNonempty]
  exact lisOf_li_map true r.objectives

theorem lis_pdfSegMethods (r : ReportModel) :
    lisOf (pdfSegMethods incAll r) =
      r.methods_raw_materials.map (fun s => (false, s))
        ++ r.methods_instruments.map (fun s => (false, s))
        ++ r.methods_procedure.map (fun s => (false, s)) := by
  unfold pdfSegMethods
  rw [if_pos (show incAll.t_methods = true from rfl),
    if_pos (show incAll.t_rm = true from rfl),
    if_pos (show incAll.t_ins = true from rfl),
    if_pos (show incAll.t_proc = true from rfl),
    if_pos (show incAll.t_trial = true from rfl)]
  simp only [lisOf_head, lisOf_append, lisOf_li_map, lisOf_if_tbl,
    List.append_nil]

theorem lis_pdfSegResults (r : ReportModel) (isFile : String → Bool) :
    lisOf (pdfSegResults incAll r isFile) = [] :=
  lisOf_results_pdf isFile r.results 1

theorem lis_pdfSegConc (r : ReportModel) :
    lisOf (pdfSegConc incAll r) = r.conclusion.map (fun s => (false, s)) :=
  lisOf_li_map false r.conclusion

theorem lis_pdfSegMisc (r : ReportModel) :
    lisOf (pdfSegMisc incAll r) = [] := rfl

theorem lis_pdfSegRefs (r : ReportModel) :
    lisOf (pdfSegRefs incAll r) = r.references.map (fun s => (false, s)) :=
  lisOf_li_map false r.references

theorem lis_pdfSegReg (r : ReportModel) :
    lisOf (pdfSegReg incAll r) = [] := rfl

theorem lis_pdfSegScale (r : ReportModel) :
    lisOf (pdfSegScale incAll r) = r.manuf_order_steps.map (fun s => (false, s)) := by
  unfold pdfSegScale
  rw [if_pos (show incAll.sec_scale = true from rfl), map_of_ifNonempty]
  simp only [lisOf_append, lisOf_head, lisOf_para, lisOf_nil, lisOf_li_map,
    List.append_nil, List.nil_append]

theorem lis_pdfSegQuality (r : ReportModel) :
    lisOf (pdfSegQuality incAll r) = [] := rfl

theorem lis_pdfSegCommercial (r : ReportModel) :
    lisOf (pdfSegCommercial incAll r) = [] := by
  unfold pdfSegCommercial
  rw [if_pos (show incAll.sec_commercial = true from rfl)]
  simp only [lisOf_append, lisOf_head, lisOf_para, lisOf_nil, lisOf_smartParas,
    lisOf_if_tbl, List.append_nil, List.nil_append]

/-- C3 counterexample: with every section enabled, the single
manufacturing-order step is emitted as an *unordered* list item in both
renderers — `(false, "step1")` — while the claim demands an ordered one. -/
theorem c3_counterexample :
    lisOf (docxBlocks incAll r3 noFile) = [(true, "o1"), (false, "step1")] ∧
    lisOf (pdfBlocks incAll r3 noFile) = [(true, "o1"), (false, "step1")] ∧
    (true, "step1") ∉ lisOf (docxBlocks incAll r3 noFile) := by
  refine ⟨by decide, by decide, by decide⟩

/-- C3 amended: with every section enabled, both renderers emit the
objectives as ordered list items and every other list field — raw materials,
instruments, procedure, conclusion, references, *and the manufacturing-order
steps* — as unordered list items, in the stored order. -/
theorem c3_list_orderedness (r : ReportModel) (isFile : String → Bool) :
    lisOf (docxBlocks incAll r isFile) =
      r.objectives.map (fun s => (true, s))
        ++ r.methods_raw_materials.map (fun s => (false, s))
        ++ r.methods_instruments.map (fun s => (false, s))
        ++ r.methods_procedure.map (fun s => (false, s))
        ++ r.conclusion.map (fun s => (false, s))
        ++ r.references.map (fun s => (false, s))
        ++ r.manuf_order_steps.map (fun s => (false, s)) ∧
    lisOf (pdfBlocks incAll r isFile) =
      r.objectives.map (fun s => (true, s))
        ++ r.methods_raw_materials.map (fun s => (false, s))
        ++ r.methods_instruments.map (fun s => (false, s))
        ++ r.methods_procedure.map (fun s => (false, s))
        ++ r.conclusion.map (fun s => (false, s))
        ++ r.references.map (fun s => (false, s))
        ++ r.manuf_order_steps.map (fun s => (false, s)) := by
  constructor
  · unfold docxBlocks
    simp only [lisOf_append, lisOf_head, lisOf_para, lisOf_nil,
      lis_docxSegGeneral, lis_docxSegPlain, lis_docxSegObjectives,
      lis_docxSegMethods, lis_docxSegResults, lis_docxSegConc, lis_docxSegMisc,
      lis_docxSegRefs, lis_docxSegReg, lis_docxSegScale, lis_docxSegQuality,
      lis_docxSegCommercial, List.append_nil, List.nil_append, List.append_assoc]
  · unfold pdfBlocks
    simp only [lisOf_append, lisOf_head, lisOf_para, lisOf_nil,
      lis_pdfSegGeneral, lis_pdfSegPlain, lis_pdfSegObjectives,
      lis_pdfSegMethods, lis_pdfSegResults, lis_pdfSegConc, lis_pdfSegMisc,
      lis_pdfSegRefs, lis_pdfSegReg, lis_pdfSegScale, lis_pdfSegQuality,
      lis_pdfSegCommercial, List.append_nil, List.nil_append, List.append_assoc]

theorem normTexts_nil : normTexts [] = [] := rfl

theorem normTexts_head (l : Nat) (s : String) (bs : List Block) :
    normTexts (Block.head l s :: bs) =
      TextItem.headText (dropLeadNL s) :: normTexts bs := rfl

theorem normTexts_para (s : String) (bs : List Block) :
    normTexts (Block.para s :: bs) = normTexts bs := rfl

theorem normTexts_pic (p : String) (bs : List Block) :
    normTexts (Block.pic p :: bs) = normTexts bs := rfl

theorem normTexts_li (o : Bool) (s : String) (bs : List Block) :
    normTexts (Block.li o s :: bs) = TextItem.liText s :: normTexts bs := rfl

theorem normTexts_tbl (g : List (List String)) (bs : List Block) :
    normTexts (Block.tbl g :: bs) =
      g.flatten.map TextItem.cellText ++ normTexts bs := by
  show (g.flatten.map TextItem.cellText ++ blockTexts bs).map normItem
    = g.flatten.map TextItem.cellText ++ normTexts bs
  rw [List.map_append, List.map_map]
  exact congrArg (fun x => x ++ normTexts bs)
    (List.map_congr_left (fun s _ => rfl))

theorem normTexts_li_map (o : Bool) (l : List String) :
    normTexts (l.map (Block.li o)) = l.map TextItem.liText := by
  induction l with
  | nil => rfl
  | cons x xs ih =>
    rw [List.map_cons, normTexts_li, ih, List.map_cons]

theorem normTexts_para_map (l : List String) :
    normTexts (l.map Block.para) = [] := by
  induction l with
  | nil => rfl
  | cons x xs ih => exact ih

theorem normTexts_if_para (c : Prop) [Decidable c] (s : String) :
    normTexts (if c then [Block.para s] else []) = [] := by
  by_cases h : c
  · rw [if_pos h]; rfl
  · rw [if_neg h]; rfl

theorem normTexts_smartParas (g : SmartGoals) (b : Bool) :
    normTexts (smartParas g b) = [] := by
  unfold smartParas
  simp only [List.flatMap_cons, List.flatMap_nil, normTexts_append,
    normTexts_if_para, List.append_nil]

theorem rowPad (row : List String) :
    (List.range row.length).map (fun c => row.getD c "") = row := by
  apply List.ext_getElem
  · simp
  · intro i h1 h2
    simp only [List.getElem_map, List.getElem_range]
    exact List.getD_eq_getElem row "" h2

theorem padGrid_rect (g : List (List String)) (h : isRectB g = true) :
    padGrid g = g := by
  unfold padGrid
  have h2 : ∀ row ∈ g,
      (List.range (gridCols g)).map (fun c => row.getD c "") = row := by
    intro row hrow
    unfold isRectB at h
    have hall := List.all_eq_true.mp h row hrow
    have hlen : row.length = gridCols g := by simpa using hall
    rw [← hlen]
    exact rowPad row
  have h3 : g.map (fun row => (List.range (gridCols g)).map (fun c => row.getD c ""))
      = g.map (fun row => row) := List.map_congr_left h2
  rw [h3]
  simp

theorem dlPair1 :
    dropLeadNL "\n1. General Information" = dropLeadNL "1. General Information" := by
  decide

theorem dlPair2 :
    dropLeadNL "\n2. Technical Information" = dropLeadNL "2. Technical Information" := by
  decide

theorem dlPair3 :
    dropLeadNL "\n3. Regulatory" = dropLeadNL "3. Regulatory" := by
  decide

theorem dlPair4 :
    dropLeadNL "\n4. Scale Up" = dropLeadNL "4. Scale Up" := by
  decide

theorem dlPair5 :
    dropLeadNL "\n5. Quality" = dropLeadNL "5. Quality" := by
  decide

theorem dlPair6 :
    dropLeadNL "\n6. Commercial" = dropLeadNL "6. Commercial" := by
  decide

theorem norm_segGeneral (inc : Include) (r : ReportModel) :
    normTexts (docxSegGeneral inc r) = normTexts (pdfSegGeneral inc r) := by
  unfold docxSegGeneral pdfSegGeneral
  by_cases h : inc.sec_general
  · rw [if_pos h, if_pos h]
    simp only [normTexts_head, normTexts_tbl, normTexts_nil, dlPair1]
  · rw [if_neg h, if_neg h]

theorem norm_segPlain (inc : Include) (r : ReportModel) :
    normTexts (docxSegPlain inc r) = normTexts (pdfSegPlain inc r) := by
  unfold docxSegPlain pdfSegPlain
  by_cases h : inc.t_plain
  · rw [if_pos h, if_pos h]
    simp only [normTexts_head, normTexts_para, normTexts_nil]
  · rw [if_neg h, if_neg h]

theorem norm_segObjectives (inc : Include) (r : ReportModel) :
    normTexts (docxSegObjectives inc r) = normTexts (pdfSegObjectives inc r) := by
  unfold docxSegObjectives pdfSegObjectives
  by_cases h : inc.t_objectives
  · rw [if_pos h, if_pos h, map_of_ifNonempty]
  · rw [if_neg h, if_neg h]

theorem norm_segMethods (inc : Include) (r : ReportModel) :
    normTexts (docxSegMethods inc r) = normTexts (pdfSegMethods inc r) := rfl

theorem resultBlocks_norm (isFile : String → Bool) (i : Nat) (it : ResultItem)
    (hit : it.kind = "table" → isRectB (effTableData it) = true) :
    normTexts (docxResultBlocks isFile i it) = normTexts (pdfResultBlocks isFile i it) := by
  unfold docxResultBlocks pdfResultBlocks
  by_cases ht : it.kind = "text"
  · rw [if_pos ht, if_pos ht]
    simp only [normTexts_head, normTexts_para, normTexts_nil, normTexts_para_map]
  · rw [if_neg ht, if_neg ht]
    by_cases hb : it.kind = "table"
    · rw [if_pos hb, if_pos hb]
      by_cases hd : effTableData it ≠ []
      · rw [if_pos hd, if_pos hd, padGrid_rect _ (hit hb)]
      · rw [if_neg hd, if_neg hd]
        simp only [normTexts_head, normTexts_para, normTexts_nil]
    · rw [if_neg hb, if_neg hb]

theorem resultsList_norm (isFile : String → Bool) :
    ∀ (items : List ResultItem),
      (∀ it ∈ items, it.kind = "table" → isRectB (effTableData it) = true) →
      ∀ i, normTexts (docxResultsList isFile i items)
        = normTexts (pdfResultsList isFile i items) := by
  intro items
  induction items with
  | nil => intro _ i; rfl
  | cons it rest ih =>
    intro h i
    simp only [docxResultsList, pdfResultsList, normTexts_append]
    rw [resultBlocks_norm isFile i it (fun hk => h it (by simp) hk),
      ih (fun x hx => h x (by simp [hx])) (i + 1)]

theorem norm_segResults (inc : Include) (r : ReportModel) (isFile : String → Bool)
    (hrect : ∀ it ∈ r.results, it.kind = "table" → isRectB (effTableData it) = true) :
    normTexts (docxSegResults inc r isFile) = normTexts (pdfSegResults inc r isFile) := by
  unfold docxSegResults pdfSegResults
  by_cases h : inc.t_results
  · rw [if_pos h, if_pos h]
    simp only [normTexts_head]
    exact congrArg (List.cons _) (resultsList_norm isFile r.results hrect 1)
  · rw [if_neg h, if_neg h]

theorem norm_segConc (inc : Include) (r : ReportModel) :
    normTexts (docxSegConc inc r) = normTexts (pdfSegConc inc r) := rfl

theorem norm_segMisc (inc : Include) (r : ReportModel) :
    normTexts (docxSegMisc inc r) = normTexts (pdfSegMisc inc r) := by
  unfold docxSegMisc pdfSegMisc
  by_cases h : inc.t_misc
  · rw [if_pos h, if_pos h]
    simp only [normTexts_head, normTexts_para, normTexts_nil]
  · rw [if_neg h, if_neg h]

theorem norm_segRefs (inc : Include) (r : ReportModel) :
    normTexts (docxSegRefs inc r) = normTexts (pdfSegRefs inc r) := rfl

theorem norm_segReg (inc : Include) (r : ReportModel) :
    normTexts (docxSegReg inc r) = normTexts (pdfSegReg inc r) := by
  unfold docxSegReg pdfSegReg
  by_cases h : inc.sec_reg
  · rw [if_pos h, if_pos h]
    simp only [normTexts_head, normTexts_para, normTexts_nil, dlPair3]
  · rw [if_neg h, if_neg h]

theorem norm_segScale (inc : Include) (r : ReportModel) :
    normTexts (docxSegScale inc r) = normTexts (pdfSegScale inc r) := by
  unfold docxSegScale pdfSegScale
  by_cases h : inc.sec_scale
  · rw [if_pos h, if_pos h, map_of_ifNonempty]
    simp only [normTexts_append, normTexts_head, normTexts_para, normTexts_nil,
      normTexts_li_map, dlPair4]
  · rw [if_neg h, if_neg h]

theorem norm_segQuality (inc : Include) (r : ReportModel) :
    normTexts (docxSegQuality inc r) = normTexts (pdfSegQuality inc r) := by
  unfold docxSegQuality pdfSegQuality
  by_cases h : inc.sec_quality
  · rw [if_pos h, if_pos h]
    simp only [normTexts_head, normTexts_para, normTexts_nil, dlPair5]
  · rw [if_neg h, if_neg h]

theorem norm_segCommercial (inc : Include) (r : ReportModel) :
    normTexts (docxSegCommercial inc r) = normTexts (pdfSegCommercial inc r) := by
  unfold docxSegCommercial pdfSegCommercial
  by_cases h : inc.sec_commercial
  · rw [if_pos h, if_pos h]
    simp only [normTexts_append, normTexts_head, normTexts_para, normTexts_nil,
      normTexts_smartParas, dlPair6, List.append_nil, List.nil_append]
  · rw [if_neg h, if_neg h]

/-- C1 counterexample: already on the empty model with every section enabled
the raw extracted text sequences differ — every level-1 heading text of the
flow-document renderer begins with the spacing newline the fixed-layout
renderer does not emit. -/
theorem c1_counterexample :
    blockTexts (docxBlocks incAll {} noFile) ≠ blockTexts (pdfBlocks incAll {} noFile) := by
  decide

/-- C1 amended: once the flow renderer's leading-newline spacing artifact on
heading texts is discounted and every table-kind result item carries a
rectangular grid, the ordered sequence of heading texts, list-item texts and
table cell texts of the two renderers coincide for every model and
include-set.  (On a ragged grid they differ further: the flow renderer pads
rows with trailing empty cells, the fixed-layout renderer does not.) -/
theorem c1_cross_renderer_texts (inc : Include) (r : ReportModel)
    (isFile : String → Bool)
    (hrect : ∀ it ∈ r.results, it.kind = "table" → isRectB (effTableData it) = true) :
    normTexts (docxBlocks inc r isFile) = normTexts (pdfBlocks inc r isFile) := by
  unfold docxBlocks pdfBlocks
  simp only [normTexts_append]
  rw [norm_segGeneral, norm_segPlain, norm_segObjectives, norm_segMethods,
    norm_segResults inc r isFile hrect, norm_segConc, norm_segMisc,
    norm_segRefs, norm_segReg, norm_segScale, norm_segQuality,
    norm_segCommercial]
  simp only [normTexts_para, normTexts_head, normTexts_nil, dlPair2]

/-- Closed instance of the amended cross-renderer equality on the empty
model (whose result list trivially satisfies the rectangularity side
condition) with every section enabled. -/
theorem c1_cross_renderer_texts_witness :
    normTexts (docxBlocks incAll {} noFile) = normTexts (pdfBlocks incAll {} noFile) :=
  c1_cross_renderer_texts incAll {} noFile
    (fun it h => absurd h (List.not_mem_nil it))

end RGGP7
